import Mathlib

/-!
Verification of the cluster-plan engine of glusterfs-linode (`cluster_plan.py`).

The Python module is embedded shallowly:
* Python `str` values are `List Char`; `str.split(':')`, `str.strip()`, `int(...)`
  and the two regular expressions used by the module are modelled by executable
  functions below.
* Python exceptions become `Except PyErr`; the distinct exception kinds that can
  escape the modelled functions are enumerated in `PyErr`.
* The stateful `create()` node loop becomes explicit state passing
  (`runRange` / `createNodes`), with one `Attempt` per loop iteration.
-/

namespace GlusterPlan

/-- Python exception kinds that the modelled code can raise. -/
inductive PyErr
  | valueError  -- ValueError: raised selector/size failures and failed int()/float()
  | nameError   -- UnboundLocalError (a NameError): reading a never-assigned local
  | keyError    -- KeyError: dict subscript of a missing key
  | indexError  -- IndexError: list subscript out of range
deriving DecidableEq, Repr

/-- Python's whitespace set for `str.strip()` and the regex class `\s`
(ASCII: space, tab, newline, carriage return, vertical tab, form feed). -/
def pySpace (c : Char) : Bool :=
  c = ' ' || c = '\t' || c = '\n' || c = '\r' || c = '\x0b' || c = '\x0c'

/-- Python `str.split(':')` (no maxsplit): splits at every colon. -/
def splitColon : List Char → List (List Char)
  | [] => [[]]
  | c :: t =>
    let r := splitColon t
    if c = ':' then [] :: r
    else
      match r with
      | [] => [[c]]
      | h :: rs => (c :: h) :: rs

/-- Python `str.strip()`: drop leading and trailing whitespace. -/
def pyStrip (l : List Char) : List Char :=
  ((l.dropWhile pySpace).reverse.dropWhile pySpace).reverse

/-- Numeric value of a decimal digit string. -/
def natOfDigits (l : List Char) : Nat :=
  l.foldl (fun n c => 10 * n + (c.toNat - '0'.toNat)) 0

/-- Python 2 `int(str)`: strips whitespace, allows one sign, then decimal digits;
anything else raises ValueError (modelled as `none`). -/
def pyInt (l : List Char) : Option Int :=
  match pyStrip l with
  | '-' :: ds =>
    if ds ≠ [] ∧ ds.all Char.isDigit then some (-(natOfDigits ds : Int)) else none
  | '+' :: ds =>
    if ds ≠ [] ∧ ds.all Char.isDigit then some ((natOfDigits ds : Int)) else none
  | ds =>
    if ds ≠ [] ∧ ds.all Char.isDigit then some ((natOfDigits ds : Int)) else none

/-- Python `dict.get`: association-list lookup. -/
def alistGet {κ α : Type} [DecidableEq κ] (l : List (κ × α)) (k : κ) : Option α :=
  (l.find? (fun pr => decide (pr.1 = k))).map Prod.snd

/-- `LinodeStaticInfo`: the provider catalog loaded once per process
(ids, label→id map, storage-capacity→id map, datacenter→id resolver). -/
structure Catalog where
  ids : List Int
  labelsToIds : List (List Char × Int)
  storageToIds : List (Int × Int)
  dcs : List (List Char × Int)
deriving DecidableEq, Repr

/-- `LinodeStaticInfo.is_valid_id`. -/
def Catalog.isValidId (cat : Catalog) (z : Int) : Bool := cat.ids.contains z

/-- `LinodeStaticInfo.id_from_label`. -/
def Catalog.idFromLabel (cat : Catalog) (s : List Char) : Option Int :=
  alistGet cat.labelsToIds s

/-- `LinodeStaticInfo.id_from_storage`. -/
def Catalog.idFromStorage (cat : Catalog) (n : Int) : Option Int :=
  alistGet cat.storageToIds n

/-- `LinodeStaticInfo.dc_id`. -/
def Catalog.dcId (cat : Catalog) (s : List Char) : Option Int :=
  alistGet cat.dcs s

/-- `GlusterClusterPlan._get_plan_id` (cluster_plan.py lines 296-344).
The selector splits on ':'; exactly two tokens are required.  Kinds: `id`
(int() parse then membership in the catalog ids), `label` (exact lookup),
`disk` (regex `([0-9]+)(.*)`, the optional unit must strip to `GB`, exact
storage lookup).  An unknown kind falls through every branch, so the final
`return plan_id` reads a never-assigned local and raises an UnboundLocalError
(a NameError), not a ValueError.  The `(.*)` group of the disk regex does not
cross a newline, hence the `takeWhile (· ≠ '\n')`. -/
def getPlanId (cat : Catalog) (plan : List Char) : Except PyErr Int :=
  match splitColon plan with
  | [t0raw, t1raw] =>
    let t0 := pyStrip t0raw
    let t1 := pyStrip t1raw
    if t0 = "id".toList then
      match pyInt t1 with
      | none => .error .valueError
      | some pid => if cat.isValidId pid then .ok pid else .error .valueError
    else if t0 = "label".toList then
      match cat.idFromLabel t1 with
      | some pid => .ok pid
      | none => .error .valueError
    else if t0 = "disk".toList then
      let ds := t1.takeWhile Char.isDigit
      if ds = [] then .error .valueError
      else
        let rest := (t1.dropWhile Char.isDigit).takeWhile (fun c => c ≠ '\n')
        let units := pyStrip rest
        if units ≠ [] ∧ units ≠ "GB".toList then .error .valueError
        else
          match cat.idFromStorage (natOfDigits ds : Int) with
          | some pid => .ok pid
          | none => .error .valueError
    else .error .nameError
  | _ => .error .valueError

/-- Result of `re.match('([0-9]*[\.]?[0-9]*)[\s]*([mMgGtT]{1,1}[bB])', s)`:
group 1 decomposed as digits `d1`, an optional dot `mid` (`[]` or `['.']`),
digits `d2`; `unit` is the lower-cased unit letter (`m`, `g` or `t`). -/
structure SizeMatch where
  d1 : List Char
  mid : List Char
  d2 : List Char
  unit : Char
deriving DecidableEq, Repr

/-- The size regex as a deterministic prefix parser.  `re.match` anchors only at
the start, so trailing characters after the unit are ignored; greedy matching
of the digit/dot/digit/whitespace classes is deterministic here because no
character can be claimed by two consecutive classes. -/
def sizeMatch (l : List Char) : Option SizeMatch :=
  let d1 := l.takeWhile Char.isDigit
  let r1 := l.dropWhile Char.isDigit
  let dm : List Char × List Char :=
    if r1.head? = some '.' then (['.'], r1.tail) else ([], r1)
  let d2 := dm.2.takeWhile Char.isDigit
  let r3 := dm.2.dropWhile Char.isDigit
  let r4 := r3.dropWhile pySpace
  match r4 with
  | c1 :: c2 :: _ =>
    if c2 = 'b' ∨ c2 = 'B' then
      if c1 = 'm' ∨ c1 = 'M' then some ⟨d1, dm.1, d2, 'm'⟩
      else if c1 = 'g' ∨ c1 = 'G' then some ⟨d1, dm.1, d2, 'g'⟩
      else if c1 = 't' ∨ c1 = 'T' then some ⟨d1, dm.1, d2, 't'⟩
      else none
    else none
  | _ => none

/-- A Python value passed as a disk size: a JSON integer or a string. -/
inductive PySize
  | int (z : Int)
  | str (s : List Char)
deriving DecidableEq, Repr

/-- `GlusterClusterPlan._disk_size_in_mb` (cluster_plan.py lines 347-381).
Integers pass through.  For strings, the regex must match a prefix; an empty
group 1 raises ValueError (`if not val`), and group 1 `"."` makes `float(val)`
raise ValueError.  Modelling caveat: the source computes `val = float(val)`
and then `int(val)` / `int(val*1024)` / `int(val*1024*1024)` in IEEE-754
binary64, while this definition keeps the matched decimal `d1.d2` as the
exact rational n/10^k (`n = natOfDigits (d1 ++ d2)`, `k = d2.length`) and
truncates by floor division after scaling.  The two readings agree on the
match/shape structure and on which strings reach the numeric branch, but can
disagree on the numeric result where binary64 rounds the literal across an
integer boundary (`float("2.9999999999999999")` is `3.0`), and on huge digit
strings, where `float` overflows to `inf` and `int(inf)` raises
OverflowError while this definition succeeds.  No theorem below inspects the
numeric value this definition returns. -/
def diskSizeInMb (size : PySize) : Except PyErr Int :=
  match size with
  | .int z => .ok z
  | .str s =>
    match sizeMatch s with
    | none => .error .valueError
    | some m =>
      if m.d1 ++ m.mid ++ m.d2 = [] then .error .valueError
      else if m.d1 ++ m.d2 = [] then .error .valueError
      else
        let n := natOfDigits (m.d1 ++ m.d2)
        let k := m.d2.length
        if m.unit = 'm' then .ok ((n / 10 ^ k : Nat) : Int)
        else if m.unit = 'g' then .ok ((n * 1024 / 10 ^ k : Nat) : Int)
        else .ok ((n * 1024 * 1024 / 10 ^ k : Nat) : Int)

/-! ### Storage layout (create(), lines 102-157) -/

/-- One brick entry of a storage spec (`label`, `size`, `type`, `mount`). -/
structure BrickSpec where
  label : List Char
  size : PySize
  fsType : List Char
  mount : List Char
deriving DecidableEq, Repr

/-- The `disks` object of one storage spec: optional `boot`, optional `swap`,
optional `bricks` list.  The swap size may be an integer or a string
(`"auto"` or a plain integer string). -/
structure DisksSpec where
  boot : Option PySize
  swap : Option PySize
  bricks : Option (List BrickSpec)
deriving DecidableEq, Repr

/-- The value stored under `disk_plan['swap']['disk_size']`: a number of MB or
the literal string `"auto"` passed through unconverted. -/
inductive SwapOut
  | mb (z : Int)
  | auto
deriving DecidableEq, Repr

/-- An entry of `disk_plan['others']`. -/
structure OtherDisk where
  label : List Char
  disk_size : Int
  fsType : List Char
deriving DecidableEq, Repr

/-- A brick-mount record `{'device', 'mount', 'fs'}` (lines 147-151). -/
structure BrickMount where
  device : List Char
  mount : List Char
  fs : List Char
deriving DecidableEq, Repr

/-- The per-class `disk_plan` dict.  A missing `others` key is modelled as the
empty list. -/
structure DiskPlanOut where
  boot : Option Int
  swap : Option SwapOut
  others : List OtherDisk
deriving DecidableEq, Repr

/-- `block_device_names` (line 102). -/
def blockDeviceNames : List (List Char) :=
  ["sda".toList, "sdb".toList, "sdc".toList, "sdd".toList,
   "sde".toList, "sdf".toList, "sdg".toList, "sdh".toList]

/-- The brick loop of create() (lines 140-152): convert each brick size, then
build its `other_disks` entry and its brick-mount entry using
`block_device_names[dev_idx]`, incrementing `dev_idx` per brick.  A size
conversion failure propagates (ValueError); running out of device names is an
IndexError. -/
def layoutBricks : List BrickSpec → Nat → Except PyErr (List OtherDisk × List BrickMount)
  | [], _ => .ok ([], [])
  | b :: rest, devIdx => do
    let sz ← diskSizeInMb b.size
    match blockDeviceNames.get? devIdx with
    | none => .error .indexError
    | some nm => do
      let r ← layoutBricks rest (devIdx + 1)
      .ok (⟨b.label, sz, b.fsType⟩ :: r.1, ⟨"/dev/".toList ++ nm, b.mount, b.fsType⟩ :: r.2)

/-- Lines 118-122: the boot entry, when present, gets its size converted
(failures propagate). -/
def bootConv : Option PySize → Except PyErr (Option Int)
  | none => .ok none
  | some sz => do
    let m ← diskSizeInMb sz
    .ok (some m)

/-- Lines 124-133: the swap entry, when present: an integer passes through
`_disk_size_in_mb` unchanged; the string `"auto"` is kept; any other string
goes through `int(...)` (ValueError on failure). -/
def swapConv : Option PySize → Except PyErr (Option SwapOut)
  | none => .ok none
  | some (.int z) => .ok (some (SwapOut.mb z))
  | some (.str s) =>
    if s = "auto".toList then .ok (some SwapOut.auto)
    else
      match pyInt s with
      | some z => .ok (some (SwapOut.mb z))
      | none => .error PyErr.valueError

/-- Lines 136-154: `if bricks:` — an empty or missing bricks list is falsy in
Python, so the brick loop is skipped entirely (`others` absent, modelled as
the empty list, and an empty mount list); otherwise the brick loop runs with
the current device index. -/
def bricksPhase (bl : List BrickSpec) (idx2 : Nat) (bootOut : Option Int)
    (swapOut : Option SwapOut) : Except PyErr (DiskPlanOut × List BrickMount) :=
  match bl with
  | [] => .ok (⟨bootOut, swapOut, []⟩, [])
  | b :: bs => do
    let r ← layoutBricks (b :: bs) idx2
    .ok (⟨bootOut, swapOut, r.1⟩, r.2)

/-- The per-storage-item body of create() (lines 109-157): boot (if present)
consumes device slot 0, swap (if present) the next slot, then the bricks in
document order. -/
def computeLayout (disks : DisksSpec) : Except PyErr (DiskPlanOut × List BrickMount) := do
  let bootOut ← bootConv disks.boot
  let idx1 : Nat := if bootOut.isSome then 1 else 0
  let swapOut ← swapConv disks.swap
  let idx2 : Nat := idx1 + (if swapOut.isSome then 1 else 0)
  bricksPhase (disks.bricks.getD []) idx2 bootOut swapOut

/-! ### Validation (validate(), lines 233-293, and DictValidator) -/

/-- A JSON scalar as far as validation inspects it. -/
inductive JVal
  | int (z : Int)
  | str (s : List Char)
  | bool (b : Bool)
  | other
deriving DecidableEq, Repr

/-- Python `type(v) is int` (a bool is not an int for `type(...) is`). -/
def JVal.isInt : JVal → Bool
  | .int _ => true
  | _ => false

/-- Python `v == 0` (note `False == 0` is true in Python). -/
def JVal.pyEqZero : JVal → Bool
  | .int z => z = 0
  | .bool b => !b
  | _ => false

/-- One entry of `cluster-plan/nodes`: optional `plan` selector, optional
`count`. -/
structure NodeItem where
  plan : Option (List Char)
  count : Option JVal
deriving DecidableEq, Repr

/-- One entry of `cluster-plan/storage`: its selector and its disks object. -/
structure StorageItem where
  plan : List Char
  disks : DisksSpec
deriving DecidableEq, Repr

/-- The `cluster-plan` section of the document. -/
structure ClusterPlanSection where
  datacenter : Option (List Char)
  storage : List StorageItem
  nodes : Option (List NodeItem)
deriving DecidableEq, Repr

/-- The parsed plan document, as far as validate()/create() inspect it. -/
structure PlanDocument where
  schemaVersion : Option JVal
  clusterType : Option JVal
  clusterPlan : Option ClusterPlanSection
deriving DecidableEq, Repr

/-- The error messages DictValidator/validate can accumulate; each constructor
stands for one literal message of the source (the two count messages are
emitted with their `%d` placeholder unformatted, as in lines 281 and 283). -/
inductive VError
  | missingKey (path : List Char)       -- "Missing key: '%s'"
  | expectingInt (path : List Char)     -- "Expecting integer value for: '%s'"
  | expectedValue (path : List Char)    -- "Expected '%s' for '%s', got '%s'"
  | invalidDatacenter (dc : List Char)  -- "Invalid datacenter: %s"
  | nodesEmpty                          -- "'nodes' is empty"
  | nodePlanMissing (childIdx : Nat)    -- "Error in nodes child #%d: 'plan' missing"
  | nodePlanInvalid (childIdx : Nat)    -- "Error in nodes child #%d: %s"
  | countNotInt                         -- "Error in nodes child #%d: count should be an integer"
  | countZero                           -- "Error in nodes child #%d: count is missing or 0"
deriving DecidableEq, Repr

/-- The count checks for one node entry (lines 279-283):
`count = item.get('count', 0)`, then a type check and a `== 0` check. -/
def countErrs (item : NodeItem) : List VError :=
  let c := item.count.getD (JVal.int 0)
  (if c.isInt then [] else [VError.countNotInt])
    ++ (if c.pyEqZero then [VError.countZero] else [])

/-- The per-node loop of validate() (lines 266-283).  A missing `plan` and a
selector failing with ValueError are accumulated (1-based child index); an
UnboundLocalError from an unknown selector kind is not caught by
`except ValueError` and propagates. -/
def validateNodes (cat : Catalog) : List NodeItem → Nat → Except PyErr (List VError)
  | [], _ => .ok []
  | item :: rest, i => do
    let pe ← (match item.plan with
      | none => Except.ok [VError.nodePlanMissing (i + 1)]
      | some p =>
        match getPlanId cat p with
        | .ok _ => Except.ok ([] : List VError)
        | .error .valueError => Except.ok [VError.nodePlanInvalid (i + 1)]
        | .error e => Except.error e)
    let re ← validateNodes cat rest (i + 1)
    Except.ok (pe ++ countErrs item ++ re)

/-- What validate() leaves behind: the returned tuple, the validator's
accumulated `dv.errors`, and the `self.validated` flag (False unless the final
line 292 runs and `dv.is_valid()` holds). -/
structure VResult where
  ret : Bool × Option (List VError)
  errors : List VError
  validated : Bool
deriving DecidableEq, Repr

/-- `GlusterClusterPlan.validate` (lines 233-293).  Checks run in source order:
schema-version int, cluster-type value, cluster-plan existence (fatal),
datacenter existence/resolution (non-fatal), nodes existence (fatal), nodes
non-emptiness (fatal), then the per-node loop.  The fatal branches return
`(False, dv.errors)`; the final line returns `(True, None)` whatever
`dv.errors` holds. -/
def validateDoc (cat : Catalog) (doc : PlanDocument) : Except PyErr VResult :=
  let e1 : List VError :=
    match doc.schemaVersion with
    | none => [VError.missingKey "schema-version".toList]
    | some v => if v.isInt then [] else [VError.expectingInt "schema-version".toList]
  let e2 : List VError :=
    match doc.clusterType with
    | none => [VError.missingKey "cluster-type".toList]
    | some v => if v = JVal.str "gluster".toList then [] else [VError.expectedValue "cluster-type".toList]
  let errs := e1 ++ e2
  match doc.clusterPlan with
  | none =>
    let final := errs ++ [VError.missingKey "cluster-plan".toList]
    .ok ⟨(false, some final), final, false⟩
  | some cp =>
    let errsDc :=
      match cp.datacenter with
      | none => errs ++ [VError.missingKey "cluster-plan/datacenter".toList]
      | some dc => if (cat.dcId dc).isNone then errs ++ [VError.invalidDatacenter dc] else errs
    match cp.nodes with
    | none =>
      let final := errsDc ++ [VError.missingKey "cluster-plan/nodes".toList]
      .ok ⟨(false, some final), final, false⟩
    | some [] =>
      let final := errsDc ++ [VError.nodesEmpty]
      .ok ⟨(false, some final), final, false⟩
    | some (n :: ns) =>
      match validateNodes cat (n :: ns) 0 with
      | .error e => .error e
      | .ok nerrs =>
        let all := errsDc ++ nerrs
        .ok ⟨(true, none), all, all.isEmpty⟩

/-- Python truthiness of a tuple is non-emptiness of the tuple itself, so a
2-tuple is truthy whatever its components hold. -/
def pyTupleTruthy {α β : Type} (_ : α × β) : Bool := true

/-- `GlusterClusterPlan.load_from_json` (lines 51-74): `none` stands for a file
that is not well-formed JSON (JSONDecodeError caught, returns False); otherwise
`validated = self.validate()` is a 2-tuple and `if not validated` tests its
truthiness.  An exception escaping validate() is not caught (only
JSONDecodeError is). -/
def loadFromJson (cat : Catalog) (parsed : Option PlanDocument) : Except PyErr Bool :=
  match parsed with
  | none => .ok false
  | some doc =>
    match validateDoc cat doc with
    | .error e => .error e
    | .ok r => if pyTupleTruthy r.ret then .ok true else .ok false

/-- The two structural conditions validate() treats as fatal: missing
`cluster-plan` root, and missing or empty node list. -/
def fatalDoc (doc : PlanDocument) : Bool :=
  match doc.clusterPlan with
  | none => true
  | some cp =>
    match cp.nodes with
    | none => true
    | some [] => true
    | some (_ :: _) => false

/-! ### The node-creation loop (create(), lines 166-202) -/

/-- A node entry after selector resolution: resolved plan id and count. -/
structure NodeEntry where
  plan_id : Int
  count : Nat
deriving DecidableEq, Repr

/-- One iteration of the inner creation loop: the `global_node_index` and
`plan_node_indexes[plan_id]` values read during the iteration, and whether
`core.create_linode` returned a truthy node_info. -/
structure Attempt where
  g : Nat
  p : Nat
  ok : Bool
deriving DecidableEq, Repr

/-- A created-node record with the two indexes stamped on it (lines 196-197). -/
structure NodeRec where
  globalIndex : Nat
  planIndex : Nat
deriving DecidableEq, Repr

/-- Lines 195-199: a successful attempt yields a stamped record appended to the
class's list; a failed one yields nothing. -/
def mkRec (a : Attempt) : Option NodeRec :=
  if a.ok then some ⟨a.g, a.p⟩ else none

/-- The inner `for i in range(count)` loop (lines 179-202): returns the attempt
trace and the final values of the two counters, both incremented once per
iteration whether or not the creation succeeded. -/
def runRange (ok : Nat → Bool) : Nat → Nat → Nat → List Attempt × Nat × Nat
  | 0, g, p => ([], g, p)
  | n + 1, g, p =>
    let r := runRange ok n (g + 1) (p + 1)
    (⟨g, p, ok g⟩ :: r.1, r.2)

/-- The state create() leaves after the node loop: the attempt trace per entry
(in document order), the final `global_node_index`, the final
`plan_node_indexes`, and the `node_list` dict (modelled as a lookup
function). -/
structure CreateOut where
  trace : List (Int × List Attempt)
  g : Nat
  pidx : Int → Nat
  nl : Int → Option (List NodeRec)

/-- The outer `for item in cluster_plan['nodes']` loop (lines 166-202): each
entry first reassigns `node_list[plan_id] = []` (line 177), then runs the inner
loop; the created records of this entry replace whatever the dict held for that
plan id. -/
def createNodes (ok : Nat → Bool) :
    List NodeEntry → Nat → (Int → Nat) → (Int → Option (List NodeRec)) → CreateOut
  | [], g, pidx, nl => ⟨[], g, pidx, nl⟩
  | e :: rest, g, pidx, nl =>
    let r := runRange ok e.count g (pidx e.plan_id)
    let created := r.1.filterMap mkRec
    let out := createNodes ok rest r.2.1
      (fun q => if q = e.plan_id then r.2.2 else pidx q)
      (fun q => if q = e.plan_id then some created else nl q)
    ⟨(e.plan_id, r.1) :: out.trace, out.g, out.pidx, out.nl⟩

/-- Sum of the counts of a list of node entries. -/
def sumCounts (es : List NodeEntry) : Nat := (es.map NodeEntry.count).sum

/-- The global indexes stamped on created records, in creation order. -/
def stampedGlobals (out : CreateOut) : List Nat :=
  (out.trace.map (fun pr => (pr.2.filterMap mkRec).map NodeRec.globalIndex)).flatten

/-- The storage loop of create() (lines 104-106): resolve each storage item's
selector in document order; a resolution failure propagates. -/
def resolveStorageIds (cat : Catalog) : List StorageItem → Except PyErr (List Int)
  | [] => .ok []
  | it :: rest => do
    let pid ← getPlanId cat it.plan
    let r ← resolveStorageIds cat rest
    .ok (pid :: r)

/-- Whether the node loop of create() would hit a KeyError at
`storage_plans[plan_id]` (line 188): some node's resolved plan id has no
corresponding storage item.  Node selectors resolve through the cache filled by
validate(), i.e. by `getPlanId` itself. -/
def createStorageLookupFails (cat : Catalog) (cp : ClusterPlanSection) : Bool :=
  match resolveStorageIds cat cp.storage, cp.nodes with
  | .ok sids, some items =>
    items.any (fun it =>
      match it.plan with
      | some p =>
        match getPlanId cat p with
        | .ok pid => !sids.contains pid
        | .error _ => false
      | none => false)
  | _, _ => false

/-! ### Brick-mount provisioning (BrickMountsProvisioner, lines 384-399) -/

/-- A created node as the provisioner sees it: its list of public addresses. -/
structure NodeRecP where
  public_ip : List (List Char)
deriving DecidableEq, Repr

/-- One call to `provisioner.exec_playbook(targets, 'ansible/mount_bricks.yaml',
variables={'mounts': mounts_for_plan})`. -/
structure Invocation where
  targets : List (List Char)
  mounts : List BrickMount
deriving DecidableEq, Repr

/-- `[n.public_ip[0] for n in nodes_of_plan]`: first public address of every
node; an empty address list raises IndexError. -/
def firstIps : List NodeRecP → Option (List (List Char))
  | [] => some []
  | n :: t =>
    match n.public_ip.head? with
    | none => none
    | some ip => (firstIps t).map (fun r => ip :: r)

/-- `BrickMountsProvisioner.provision_brick_mounts` (lines 386-399): one
playbook invocation per entry of `node_list`, each passing that class's first
public addresses and `brick_mounts[plan_id]` — with no emptiness check on the
mount list.  A plan id absent from `brick_mounts` raises KeyError. -/
def provisionBrickMounts (node_list : List (Int × List NodeRecP))
    (brick_mounts : List (Int × List BrickMount)) : Except PyErr (List Invocation) :=
  match node_list with
  | [] => .ok []
  | (pid, nodes) :: rest =>
    match alistGet brick_mounts pid with
    | none => .error .keyError
    | some ms =>
      match firstIps nodes with
      | none => .error .indexError
      | some targets => do
        let r ← provisionBrickMounts rest brick_mounts
        .ok (⟨targets, ms⟩ :: r)

/-! ### Concrete inputs used by witnesses and counterexamples -/

/-- A small catalog: ids 1 and 2, one label, one storage capacity, one
datacenter. -/
def cat0 : Catalog :=
  ⟨[1, 2], [("Linode 2048".toList, 1)], [(48, 1)], [("newark".toList, 6)]⟩

/-- A document whose only violation is non-fatal (missing `schema-version`):
everything else resolves. -/
def docC1 : PlanDocument :=
  ⟨none, some (JVal.str "gluster".toList),
    some ⟨some "newark".toList, [], some [⟨some "id:1".toList, some (JVal.int 2)⟩]⟩⟩

/-- A cluster-plan section whose single node entry resolves to id 1 while the
only storage item resolves to id 2. -/
def cpC7 : ClusterPlanSection :=
  ⟨some "newark".toList,
    [⟨"id:2".toList, ⟨some (PySize.int 1024), none, none⟩⟩],
    some [⟨some "id:1".toList, some (JVal.int 1)⟩]⟩

/-- A fully valid document around `cpC7`. -/
def docC7 : PlanDocument :=
  ⟨some (JVal.int 1), some (JVal.str "gluster".toList), some cpC7⟩

/-- A well-formed document whose node selector has an unknown kind (`foo:`). -/
def docFoo : PlanDocument :=
  ⟨some (JVal.int 1), some (JVal.str "gluster".toList),
    some ⟨some "newark".toList, [], some [⟨some "foo:1".toList, some (JVal.int 2)⟩]⟩⟩

/-- A well-formed document with an empty node list (fatal validation). -/
def docEmptyNodes : PlanDocument :=
  ⟨some (JVal.int 1), some (JVal.str "gluster".toList),
    some ⟨some "newark".toList, [], some []⟩⟩

/-- A node list with one class holding one node with one public address. -/
def nl6 : List (Int × List NodeRecP) := [(1, [⟨["10.0.0.1".toList]⟩])]

/-- Brick mounts mapping that class to an empty mount list. -/
def bm6 : List (Int × List BrickMount) := [(1, [])]

/-- A storage spec with a boot disk, an auto swap and one xfs brick. -/
def disks1 : DisksSpec :=
  ⟨some (PySize.int 20480), some (PySize.str "auto".toList),
    some [⟨"b1".toList, PySize.str "100GB".toList, "xfs".toList, "/data".toList⟩]⟩

/-- Two node entries with distinct plan ids. -/
def entries0 : List NodeEntry := [⟨1, 2⟩, ⟨2, 1⟩]

/-- A success oracle that fails exactly the second creation attempt. -/
def ok0 : Nat → Bool := fun g => decide (g ≠ 2)

/-! ### Helper lemmas on the string model -/

theorem splitColon_ne_nil (l : List Char) : splitColon l ≠ [] := by
  cases l with
  | nil => simp [splitColon]
  | cons c t =>
    simp only [splitColon]
    by_cases hc : c = ':'
    · simp [hc]
    · simp only [if_neg hc]
      cases splitColon t <;> simp

theorem splitColon_no_colon {l : List Char} (h : ':' ∉ l) : splitColon l = [l] := by
  induction l with
  | nil => rfl
  | cons c t ih =>
    have hc : c ≠ ':' := by rintro rfl; exact h (List.mem_cons_self _ _)
    have ht : ':' ∉ t := fun hm => h (List.mem_cons_of_mem _ hm)
    simp [splitColon, hc, ih ht]

theorem splitColon_append (a b : List Char) (ha : ':' ∉ a) (hb : ':' ∉ b) :
    splitColon (a ++ ':' :: b) = [a, b] := by
  induction a with
  | nil => simp [splitColon, splitColon_no_colon hb]
  | cons c t ih =>
    have hc : c ≠ ':' := by rintro rfl; exact ha (List.mem_cons_self _ _)
    have ht : ':' ∉ t := fun hm => ha (List.mem_cons_of_mem _ hm)
    simp [splitColon, hc, ih ht]

theorem takeWhile_nil_of_all_false {α : Type} {p : α → Bool} {l : List α}
    (h : ∀ c ∈ l, p c = false) : l.takeWhile p = [] := by
  cases l with
  | nil => rfl
  | cons a t => simp [List.takeWhile_cons, h a (List.mem_cons_self _ _)]

theorem dropWhile_eq_self_of_all_false {α : Type} {p : α → Bool} {l : List α}
    (h : ∀ c ∈ l, p c = false) : l.dropWhile p = l := by
  cases l with
  | nil => rfl
  | cons a t => simp [List.dropWhile_cons, h a (List.mem_cons_self _ _)]

theorem takeWhile_eq_self_of_all_true {α : Type} {p : α → Bool} {l : List α}
    (h : ∀ c ∈ l, p c = true) : l.takeWhile p = l := by
  induction l with
  | nil => rfl
  | cons a t ih =>
    simp [List.takeWhile_cons, h a (List.mem_cons_self _ _),
      ih (fun c hc => h c (List.mem_cons_of_mem _ hc))]

theorem pySpace_not_digit {c : Char} (h : pySpace c = true) : c.isDigit = false := by
  simp only [pySpace, Bool.or_eq_true, decide_eq_true_eq] at h
  rcases h with ((((h | h) | h) | h) | h) | h <;> subst h <;> decide

theorem digit_not_pySpace {c : Char} (h : c.isDigit = true) : pySpace c = false := by
  cases hs : pySpace c
  · rfl
  · rw [pySpace_not_digit hs] at h
    cases h

theorem digit_ne_colon {c : Char} (h : c.isDigit = true) : c ≠ ':' := by
  rintro rfl
  exact absurd h (by decide)

theorem pySpace_ne_colon {c : Char} (h : pySpace c = true) : c ≠ ':' := by
  rintro rfl
  exact absurd h (by decide)

theorem pySpace_ne_dot {c : Char} (h : pySpace c = true) : c ≠ '.' := by
  rintro rfl
  exact absurd h (by decide)

theorem dropWhile_eq_nil_of_all_true {α : Type} {p : α → Bool} {l : List α}
    (h : ∀ c ∈ l, p c = true) : l.dropWhile p = [] := by
  induction l with
  | nil => rfl
  | cons a t ih =>
    simp [List.dropWhile_cons, h a (List.mem_cons_self _ _),
      ih (fun c hc => h c (List.mem_cons_of_mem _ hc))]

/-- Stripping whitespace followed by a whitespace-free tail keeps the tail. -/
theorem pyStrip_spaces_append {ws us : List Char}
    (hw : ∀ c ∈ ws, pySpace c = true) (hu : ∀ c ∈ us, pySpace c = false) :
    pyStrip (ws ++ us) = us := by
  unfold pyStrip
  rw [List.dropWhile_append_of_pos hw, dropWhile_eq_self_of_all_false hu,
    dropWhile_eq_self_of_all_false (fun c hc => hu c (List.mem_reverse.mp hc)),
    List.reverse_reverse]

/-- Stripping a digit string with an all-whitespace tail keeps just the
digits. -/
theorem pyStrip_digits_spaces {ds ws : List Char}
    (hne : ds ≠ []) (hd : ∀ c ∈ ds, c.isDigit = true)
    (hw : ∀ c ∈ ws, pySpace c = true) :
    pyStrip (ds ++ ws) = ds := by
  have hdf : ∀ c ∈ ds, pySpace c = false := fun c hc => digit_not_pySpace (hd c hc)
  have h1 : (ds ++ ws).dropWhile pySpace = ds ++ ws := by
    cases ds with
    | nil => exact absurd rfl hne
    | cons d t => simp [List.dropWhile_cons, hdf d (List.mem_cons_self _ _)]
  unfold pyStrip
  rw [h1, List.reverse_append]
  rw [List.dropWhile_append_of_pos (fun c hc => hw c (List.mem_reverse.mp hc))]
  rw [dropWhile_eq_self_of_all_false (fun c hc => hdf c (List.mem_reverse.mp hc))]
  exact List.reverse_reverse ds

/-- Stripping `digits ++ spaces ++ unit ++ spaces` (unit non-empty and
whitespace-free) keeps `digits ++ spaces ++ unit`. -/
theorem pyStrip_digits_unit {ds ws1 us ws2 : List Char}
    (hne : ds ≠ []) (hd : ∀ c ∈ ds, c.isDigit = true)
    (h2 : ∀ c ∈ ws2, pySpace c = true)
    (hu : ∀ c ∈ us, pySpace c = false) (hune : us ≠ []) :
    pyStrip (ds ++ ws1 ++ us ++ ws2) = ds ++ ws1 ++ us := by
  have hdf : ∀ c ∈ ds, pySpace c = false := fun c hc => digit_not_pySpace (hd c hc)
  have hlead : (ds ++ ws1 ++ us ++ ws2).dropWhile pySpace = ds ++ ws1 ++ us ++ ws2 := by
    cases ds with
    | nil => exact absurd rfl hne
    | cons d t => simp [List.dropWhile_cons, hdf d (List.mem_cons_self _ _)]
  have husrev : us.reverse.dropWhile pySpace = us.reverse :=
    dropWhile_eq_self_of_all_false (fun c hc => hu c (List.mem_reverse.mp hc))
  unfold pyStrip
  rw [hlead]
  rw [show ds ++ ws1 ++ us ++ ws2 = (ds ++ ws1) ++ us ++ ws2 by simp]
  rw [List.reverse_append, List.reverse_append]
  rw [List.dropWhile_append_of_pos (fun c hc => h2 c (List.mem_reverse.mp hc))]
  rw [List.dropWhile_append, husrev]
  have : us.reverse.isEmpty = false := by
    cases us with
    | nil => exact absurd rfl hune
    | cons u t => simp
  rw [this]
  simp

/-! ### Selector-resolution clauses (`_get_plan_id`) -/

/-- `id:<v>` dispatch: with no colon in `v`, the selector splits into
`["id", v]` and the id branch runs on the stripped value. -/
theorem getPlanId_id_clause (cat : Catalog) (s : List Char) (hs : ':' ∉ s) :
    getPlanId cat ("id:".toList ++ s) =
      (match pyInt (pyStrip s) with
       | none => Except.error PyErr.valueError
       | some pid => if cat.isValidId pid then Except.ok pid else Except.error PyErr.valueError) := by
  show getPlanId cat (['i', 'd'] ++ ':' :: s) = _
  have e : pyStrip ['i', 'd'] = ['i', 'd'] := by decide
  simp only [getPlanId, splitColon_append ['i', 'd'] s (by decide) hs]
  rw [e]
  simp

/-- `label:<v>` dispatch: exact lookup of the stripped value. -/
theorem getPlanId_label_clause (cat : Catalog) (s : List Char) (hs : ':' ∉ s) :
    getPlanId cat ("label:".toList ++ s) =
      (match cat.idFromLabel (pyStrip s) with
       | some pid => Except.ok pid
       | none => Except.error PyErr.valueError) := by
  show getPlanId cat (['l', 'a', 'b', 'e', 'l'] ++ ':' :: s) = _
  have e : pyStrip ['l', 'a', 'b', 'e', 'l'] = ['l', 'a', 'b', 'e', 'l'] := by decide
  simp only [getPlanId, splitColon_append ['l', 'a', 'b', 'e', 'l'] s (by decide) hs]
  rw [e]
  simp

/-- A selector that does not split into exactly two tokens raises ValueError. -/
theorem getPlanId_len_clause (cat : Catalog) (plan : List Char)
    (h : (splitColon plan).length ≠ 2) :
    getPlanId cat plan = Except.error PyErr.valueError := by
  simp only [getPlanId]
  rcases hsp : splitColon plan with _ | ⟨t0, _ | ⟨t1, _ | ⟨t2, ts⟩⟩⟩
  · rfl
  · rfl
  · rw [hsp] at h
    simp at h
  · rfl

/-- `disk:<digits><ws?><unit?><ws?>`: succeeds exactly when the trimmed unit is
empty or `GB` and the capacity is an exact storage entry. -/
theorem getPlanId_disk_clause (cat : Catalog) (ds ws1 us ws2 : List Char)
    (hds : ds ≠ []) (hd : ∀ c ∈ ds, c.isDigit = true)
    (h1 : ∀ c ∈ ws1, pySpace c = true ∧ c ≠ '\n')
    (h2 : ∀ c ∈ ws2, pySpace c = true ∧ c ≠ '\n')
    (hu : ∀ c ∈ us, pySpace c = false ∧ c.isDigit = false ∧ c ≠ ':' ∧ c ≠ '\n') :
    getPlanId cat ("disk:".toList ++ (ds ++ ws1 ++ us ++ ws2)) =
      (if us = [] ∨ us = "GB".toList then
        (match cat.idFromStorage ((natOfDigits ds : Nat) : Int) with
         | some pid => Except.ok pid
         | none => Except.error PyErr.valueError)
       else Except.error PyErr.valueError) := by
  have h1s : ∀ c ∈ ws1, pySpace c = true := fun c hc => (h1 c hc).1
  have h2s : ∀ c ∈ ws2, pySpace c = true := fun c hc => (h2 c hc).1
  have hus : ∀ c ∈ us, pySpace c = false := fun c hc => (hu c hc).1
  have hud : ∀ c ∈ us, c.isDigit = false := fun c hc => (hu c hc).2.1
  have hb : ':' ∉ ds ++ ws1 ++ us ++ ws2 := by
    intro hm
    simp only [List.mem_append] at hm
    rcases hm with ((hm | hm) | hm) | hm
    · exact digit_ne_colon (hd _ hm) rfl
    · exact pySpace_ne_colon (h1s _ hm) rfl
    · exact (hu _ hm).2.2.1 rfl
    · exact pySpace_ne_colon (h2s _ hm) rfl
  show getPlanId cat (['d', 'i', 's', 'k'] ++ ':' :: (ds ++ ws1 ++ us ++ ws2)) = _
  have e : pyStrip ['d', 'i', 's', 'k'] = ['d', 'i', 's', 'k'] := by decide
  simp only [getPlanId, splitColon_append ['d', 'i', 's', 'k'] _ (by decide) hb]
  rw [e]
  by_cases hue : us = []
  · subst hue
    have et1 : pyStrip (ds ++ ws1 ++ [] ++ ws2) = ds := by
      rw [show ds ++ ws1 ++ [] ++ ws2 = ds ++ (ws1 ++ ws2) by simp]
      refine pyStrip_digits_spaces hds hd ?_
      intro c hc
      rcases List.mem_append.mp hc with h | h
      exacts [h1s c h, h2s c h]
    rw [et1, takeWhile_eq_self_of_all_true hd, dropWhile_eq_nil_of_all_true hd]
    simp [hds, show pyStrip ([] : List Char) = [] from rfl]
  · have et1 : pyStrip (ds ++ ws1 ++ us ++ ws2) = ds ++ ws1 ++ us :=
      pyStrip_digits_unit hds hd h2s hus hue
    rw [et1]
    have hnd : ∀ c ∈ ws1 ++ us, c.isDigit = false := by
      intro c hc
      rcases List.mem_append.mp hc with h | h
      exacts [pySpace_not_digit (h1s c h), hud c h]
    have etw : List.takeWhile Char.isDigit (ds ++ ws1 ++ us) = ds := by
      rw [show ds ++ ws1 ++ us = ds ++ (ws1 ++ us) by simp]
      rw [List.takeWhile_append_of_pos hd, takeWhile_nil_of_all_false hnd]
      simp
    have edw : List.dropWhile Char.isDigit (ds ++ ws1 ++ us) = ws1 ++ us := by
      rw [show ds ++ ws1 ++ us = ds ++ (ws1 ++ us) by simp]
      rw [List.dropWhile_append_of_pos hd]
      exact dropWhile_eq_self_of_all_false hnd
    rw [etw, edw]
    have etn : List.takeWhile (fun c => decide (c ≠ '\n')) (ws1 ++ us) = ws1 ++ us := by
      apply takeWhile_eq_self_of_all_true
      intro c hc
      simp only [decide_eq_true_eq]
      rcases List.mem_append.mp hc with h | h
      exacts [(h1 c h).2, (hu c h).2.2.2]
    rw [etn, pyStrip_spaces_append h1s hus]
    by_cases hgb : us = "GB".toList
    · simp [hgb, hds]
    · simp [hue, hgb, hds]

/-- Claim C4 (confirmed): for every selector string, `id:<n>` succeeds iff `n`
parses as an integer in the catalog's known-id set (returning that id);
`label:<s>` succeeds iff the trimmed `s` is an exact catalog label; a selector
that does not split into exactly two colon-separated tokens fails with the
ValueError (`InvalidSelector`); and `disk:<n><unit?>` succeeds iff the trimmed
optional unit is empty or exactly `GB` and the capacity is an exact catalog
storage entry — in particular `disk:48GB` and `disk:48 GB` are equivalent. -/
theorem c4_selector_resolution (cat : Catalog) (s : List Char) (hs : ':' ∉ s) :
    (getPlanId cat ("id:".toList ++ s) =
      (match pyInt (pyStrip s) with
       | none => Except.error PyErr.valueError
       | some pid => if cat.isValidId pid then Except.ok pid else Except.error PyErr.valueError))
  ∧ (getPlanId cat ("label:".toList ++ s) =
      (match cat.idFromLabel (pyStrip s) with
       | some pid => Except.ok pid
       | none => Except.error PyErr.valueError))
  ∧ (∀ plan : List Char, (splitColon plan).length ≠ 2 →
      getPlanId cat plan = Except.error PyErr.valueError)
  ∧ (∀ ds ws1 us ws2 : List Char, ds ≠ [] → (∀ c ∈ ds, c.isDigit = true) →
      (∀ c ∈ ws1, pySpace c = true ∧ c ≠ '\n') →
      (∀ c ∈ ws2, pySpace c = true ∧ c ≠ '\n') →
      (∀ c ∈ us, pySpace c = false ∧ c.isDigit = false ∧ c ≠ ':' ∧ c ≠ '\n') →
      getPlanId cat ("disk:".toList ++ (ds ++ ws1 ++ us ++ ws2)) =
        (if us = [] ∨ us = "GB".toList then
          (match cat.idFromStorage ((natOfDigits ds : Nat) : Int) with
           | some pid => Except.ok pid
           | none => Except.error PyErr.valueError)
         else Except.error PyErr.valueError))
  ∧ getPlanId cat "disk:48GB".toList = getPlanId cat "disk:48 GB".toList := by
  refine ⟨getPlanId_id_clause cat s hs, getPlanId_label_clause cat s hs,
    getPlanId_len_clause cat, getPlanId_disk_clause cat, ?_⟩
  have ha := getPlanId_disk_clause cat ['4', '8'] [] ['G', 'B'] []
    (by decide) (by decide) (by decide) (by decide) (by decide)
  have hc := getPlanId_disk_clause cat ['4', '8'] [' '] ['G', 'B'] []
    (by decide) (by decide) (by decide) (by decide) (by decide)
  exact ha.trans hc.symm

/-- Witness for C4 at concrete inputs: `id:2` resolves to id 2 and
`disk:48 GB` resolves to id 1 in the sample catalog. -/
theorem c4_selector_resolution_witness :
    getPlanId cat0 "id:2".toList = Except.ok 2
  ∧ getPlanId cat0 "disk:48 GB".toList = Except.ok 1 := by
  constructor
  · exact ((c4_selector_resolution cat0 "2".toList (by decide)).1).trans (by rfl)
  · have h := (c4_selector_resolution cat0 "2".toList (by decide)).2.2.2.1
      ['4', '8'] [' '] ['G', 'B'] [] (by decide) (by decide) (by decide) (by decide) (by decide)
    exact h.trans (by rfl)

/-- Claim C10 (confirmed): a selector with exactly two colon-separated tokens
whose kind is none of `id`, `label`, `disk` does not raise the
InvalidSelector ValueError: no branch assigns `plan_id`, so the final
`return plan_id` reads an unbound local and raises a NameError. -/
theorem c10_unknown_kind_unbound_local (cat : Catalog) (a b : List Char)
    (ha : ':' ∉ a) (hb : ':' ∉ b)
    (h1 : pyStrip a ≠ "id".toList) (h2 : pyStrip a ≠ "label".toList)
    (h3 : pyStrip a ≠ "disk".toList) :
    getPlanId cat (a ++ ':' :: b) = Except.error PyErr.nameError := by
  have h1e : pyStrip a ≠ ['i', 'd'] := h1
  have h2e : pyStrip a ≠ ['l', 'a', 'b', 'e', 'l'] := h2
  have h3e : pyStrip a ≠ ['d', 'i', 's', 'k'] := h3
  simp only [getPlanId, splitColon_append a b ha hb]
  simp [h1e, h2e, h3e]

/-- Witness for C10: the selector `foo:1` raises the unbound-local NameError. -/
theorem c10_unknown_kind_unbound_local_witness :
    getPlanId cat0 "foo:1".toList = Except.error PyErr.nameError :=
  c10_unknown_kind_unbound_local cat0 "foo".toList "1".toList
    (by decide) (by decide) (by decide) (by decide) (by decide)

/-! ### Validation and loading (validate(), load_from_json) -/

/-- Claim C1 (corrected): whenever validate() returns (it can instead raise an
uncaught NameError from an unknown selector kind), it returns false exactly on
the fatal structural conditions — missing `cluster-plan` root, missing or empty
node list — and in the fatal case the error list accumulated so far is the
second component; in every other case it returns `(True, None)`: the
accumulated non-fatal error list is NOT returned, so a caller cannot inspect
the non-fatal errors from the returned tuple. -/
theorem c1_validate_return_semantics (cat : Catalog) (doc : PlanDocument) (r : VResult)
    (h : validateDoc cat doc = Except.ok r) :
    ((r.ret.1 = false) ↔ fatalDoc doc = true)
  ∧ (r.ret.1 = true → r.ret.2 = none)
  ∧ (r.ret.1 = false → r.ret.2 = some r.errors) := by
  rcases doc with ⟨sv, ct, cp⟩
  rcases cp with _ | ⟨dc, storage, nodes⟩
  · simp only [validateDoc] at h
    injection h with h'
    subst h'
    simp [fatalDoc]
  · rcases nodes with _ | nlist
    · simp only [validateDoc] at h
      injection h with h'
      subst h'
      simp [fatalDoc]
    · rcases nlist with _ | ⟨n, ns⟩
      · simp only [validateDoc] at h
        injection h with h'
        subst h'
        simp [fatalDoc]
      · simp only [validateDoc] at h
        rcases hv : validateNodes cat (n :: ns) 0 with e | nerrs <;> rw [hv] at h
        · cases h
        · injection h with h'
          subst h'
          simp [fatalDoc]

/-- Witness for C1 at the empty-node-list document: validation is fatal, the
returned flag is false and the error list is returned. -/
theorem c1_validate_return_semantics_witness :
    (((⟨(false, some [VError.nodesEmpty]), [VError.nodesEmpty], false⟩ : VResult).ret.1 = false)
      ↔ fatalDoc docEmptyNodes = true)
  ∧ ((⟨(false, some [VError.nodesEmpty]), [VError.nodesEmpty], false⟩ : VResult).ret.1 = true →
      (⟨(false, some [VError.nodesEmpty]), [VError.nodesEmpty], false⟩ : VResult).ret.2 = none)
  ∧ ((⟨(false, some [VError.nodesEmpty]), [VError.nodesEmpty], false⟩ : VResult).ret.1 = false →
      (⟨(false, some [VError.nodesEmpty]), [VError.nodesEmpty], false⟩ : VResult).ret.2 =
        some (⟨(false, some [VError.nodesEmpty]), [VError.nodesEmpty], false⟩ : VResult).errors) :=
  c1_validate_return_semantics cat0 docEmptyNodes
    ⟨(false, some [VError.nodesEmpty]), [VError.nodesEmpty], false⟩ (by rfl)

/-- Counterexample to C1 as stated: a document whose only violation is the
non-fatal missing `schema-version` — validate() accumulates the error
(`errors` is non-empty, `validated` is false) yet returns `(True, None)`, not
`(True, [errors])`: the caller cannot see the non-fatal error list. -/
theorem c1_errors_not_returned :
    validateDoc cat0 docC1 =
      Except.ok ⟨(true, none), [VError.missingKey "schema-version".toList], false⟩ := by rfl

/-- Claim C7 (code_bug): the node-plan / storage-plan correspondence is NOT
checked during validation (the source carries an explicit TODO at lines
285-286): `docC7` passes validation with zero accumulated errors, yet
create()'s per-class lookup `storage_plans[plan_id]` fails (KeyError) because
its node resolves to id 1 while the only storage item resolves to id 2. -/
theorem c7_validate_misses_storage_mismatch :
    validateDoc cat0 docC7 = Except.ok ⟨(true, none), [], true⟩
  ∧ createStorageLookupFails cat0 cpC7 = true := ⟨rfl, rfl⟩

/-- Claim C8 (corrected): whenever validate() returns a tuple — fatal
structural violations included — load_from_json returns True, because the
2-tuple is always truthy and the `if not validated` failure branch is
unreachable; a parse failure returns False.  The one exception: a NameError
escaping validate() propagates out of load_from_json (only JSONDecodeError is
caught), so load_from_json then returns nothing at all. -/
theorem c8_load_truthy_tuple (cat : Catalog) (doc : PlanDocument) (r : VResult)
    (h : validateDoc cat doc = Except.ok r) :
    loadFromJson cat (some doc) = Except.ok true
  ∧ loadFromJson cat none = Except.ok false := by
  constructor
  · simp [loadFromJson, h, pyTupleTruthy]
  · rfl

/-- Witness for C8: even the fatally invalid empty-node-list document loads
with True; a malformed file gives False. -/
theorem c8_load_truthy_tuple_witness :
    loadFromJson cat0 (some docEmptyNodes) = Except.ok true
  ∧ loadFromJson cat0 none = Except.ok false :=
  c8_load_truthy_tuple cat0 docEmptyNodes
    ⟨(false, some [VError.nodesEmpty]), [VError.nodesEmpty], false⟩ (by rfl)

/-- Counterexample to C8 as stated: a well-formed document containing the
selector `foo:1` makes validate() raise the unbound-local NameError, which
load_from_json does not catch — so it neither returns True nor False. -/
theorem c8_load_raises_name_error :
    loadFromJson cat0 (some docFoo) = Except.error PyErr.nameError := by rfl

/-! ### Node-index bookkeeping (create()'s node loop) -/

theorem runRange_map_g (ok : Nat → Bool) : ∀ n g p : Nat,
    ((runRange ok n g p).1.map Attempt.g) = List.range' g n
  | 0, _, _ => by simp [runRange]
  | n + 1, g, p => by
    simp [runRange, List.range'_succ, runRange_map_g ok n (g + 1) (p + 1)]

theorem runRange_map_p (ok : Nat → Bool) : ∀ n g p : Nat,
    ((runRange ok n g p).1.map Attempt.p) = List.range' p n
  | 0, _, _ => by simp [runRange]
  | n + 1, g, p => by
    simp [runRange, List.range'_succ, runRange_map_p ok n (g + 1) (p + 1)]

theorem runRange_final (ok : Nat → Bool) : ∀ n g p : Nat,
    (runRange ok n g p).2 = (g + n, p + n)
  | 0, g, p => by simp [runRange]
  | n + 1, g, p => by
    simp [runRange, runRange_final ok n (g + 1) (p + 1), Prod.ext_iff]
    omega

theorem runRange_mem_g (ok : Nat → Bool) : ∀ (n g p : Nat) (a : Attempt),
    a ∈ (runRange ok n g p).1 → g ≤ a.g ∧ a.g < g + n
  | 0, g, p, a => by simp [runRange]
  | n + 1, g, p, a => by
    intro ha
    simp only [runRange, List.mem_cons] at ha
    rcases ha with rfl | ha
    · simp
    · have := runRange_mem_g ok n (g + 1) (p + 1) a ha
      omega

theorem filterMap_mkRec_g : ∀ l : List Attempt,
    ((l.filterMap mkRec).map NodeRec.globalIndex) = (l.filter Attempt.ok).map Attempt.g
  | [] => rfl
  | a :: t => by
    by_cases ha : a.ok
    · simp [List.filterMap_cons, List.filter_cons, mkRec, ha, filterMap_mkRec_g t]
    · simp [List.filterMap_cons, List.filter_cons, mkRec, ha, filterMap_mkRec_g t]

/-- The attempt trace consumes global indexes `g, g+1, ...` in creation order
across all entries, and the final counter is `g + Σ count`. -/
theorem createNodes_globals (ok : Nat → Bool) : ∀ (entries : List NodeEntry)
    (g : Nat) (pidx : Int → Nat) (nl : Int → Option (List NodeRec)),
    (((createNodes ok entries g pidx nl).trace.map
        (fun pr => pr.2.map Attempt.g)).flatten = List.range' g (sumCounts entries))
  ∧ (createNodes ok entries g pidx nl).g = g + sumCounts entries
  | [], g, pidx, nl => by simp [createNodes, sumCounts]
  | e :: rest, g, pidx, nl => by
    have hf := runRange_final ok e.count g (pidx e.plan_id)
    have ih := createNodes_globals ok rest (g + e.count)
      (fun q => if q = e.plan_id then (pidx e.plan_id) + e.count else pidx q)
      (fun q => if q = e.plan_id then
        some ((runRange ok e.count g (pidx e.plan_id)).1.filterMap mkRec) else nl q)
    constructor
    · simp only [createNodes, hf, List.map_cons, List.flatten_cons]
      rw [runRange_map_g]
      rw [ih.1]
      rw [show sumCounts (e :: rest) = e.count + sumCounts rest by simp [sumCounts]]
      simp [Nat.add_comm, List.range'_append_1 g e.count (sumCounts rest)]
    · simp only [createNodes, hf]
      rw [ih.2]
      simp [sumCounts]
      omega

/-- With pairwise-distinct plan ids, each entry's per-class counter starts at 1
and its attempts consume exactly the values `1 .. count`. -/
theorem createNodes_per_class (ok : Nat → Bool) : ∀ (entries : List NodeEntry)
    (g : Nat) (pidx : Int → Nat) (nl : Int → Option (List NodeRec)),
    (∀ e ∈ entries, pidx e.plan_id = 1) →
    (entries.map NodeEntry.plan_id).Nodup →
    List.Forall₂ (fun e pr => pr.1 = e.plan_id ∧ pr.2.map Attempt.p = List.range' 1 e.count)
      entries (createNodes ok entries g pidx nl).trace
  | [], _, _, _, _, _ => by simp [createNodes]
  | e :: rest, g, pidx, nl, hp, hn => by
    simp only [createNodes]
    refine List.Forall₂.cons ⟨rfl, ?_⟩ ?_
    · rw [runRange_map_p, hp e (List.mem_cons_self _ _)]
    · have hnd : e.plan_id ∉ rest.map NodeEntry.plan_id := by
        have hx := hn
        simp only [List.map_cons, List.nodup_cons] at hx
        exact hx.1
      refine createNodes_per_class ok rest _ _ _ ?_ ?_
      · intro e' he'
        have hne : e'.plan_id ≠ e.plan_id := by
          intro hx
          exact hnd (hx ▸ List.mem_map_of_mem NodeEntry.plan_id he')
        simp [hne, hp e' (List.mem_cons_of_mem _ he')]
      · have hx := hn
        simp only [List.map_cons, List.nodup_cons] at hx
        exact hx.2

/-- The stamped global indexes form a sublist of the attempt-trace indexes. -/
theorem stamped_sublist_globals : ∀ L : List (Int × List Attempt),
    ((L.map (fun pr => (pr.2.filterMap mkRec).map NodeRec.globalIndex)).flatten).Sublist
      ((L.map (fun pr => pr.2.map Attempt.g)).flatten)
  | [] => List.Sublist.refl _
  | pr :: rest => by
    simp only [List.map_cons, List.flatten_cons]
    refine List.Sublist.append ?_ (stamped_sublist_globals rest)
    rw [filterMap_mkRec_g]
    exact (List.filter_sublist _).map Attempt.g

/-- Claim C2 (confirmed): starting from fresh counters, whatever the success
oracle does, (i) the global indexes consumed by the attempts are exactly
`1 .. Σ count` in creation order, (ii) the global indexes stamped on created
records strictly increase in creation order (hence are never reused), (iii)
with pairwise-distinct resolved plan ids each entry's attempts consume
per-class indexes exactly `1 .. count`, contiguous from 1, and (iv) the final
global counter is `1 + Σ count` — both counters being incremented exactly once
per attempt, success or failure. -/
theorem c2_index_invariants (ok : Nat → Bool) (entries : List NodeEntry)
    (h : (entries.map NodeEntry.plan_id).Nodup) :
    (((createNodes ok entries 1 (fun _ => 1) (fun _ => none)).trace.map
        (fun pr => pr.2.map Attempt.g)).flatten = List.range' 1 (sumCounts entries))
  ∧ List.Pairwise (· < ·) (stampedGlobals (createNodes ok entries 1 (fun _ => 1) (fun _ => none)))
  ∧ List.Forall₂ (fun e pr => pr.1 = e.plan_id ∧ pr.2.map Attempt.p = List.range' 1 e.count)
      entries (createNodes ok entries 1 (fun _ => 1) (fun _ => none)).trace
  ∧ (createNodes ok entries 1 (fun _ => 1) (fun _ => none)).g = 1 + sumCounts entries := by
  have hg := createNodes_globals ok entries 1 (fun _ => 1) (fun _ => none)
  refine ⟨hg.1, ?_, createNodes_per_class ok entries 1 _ _ (fun _ _ => rfl) h, hg.2⟩
  have hsub := stamped_sublist_globals (createNodes ok entries 1 (fun _ => 1) (fun _ => none)).trace
  rw [hg.1] at hsub
  exact (List.pairwise_lt_range' 1 (sumCounts entries) 1).sublist hsub

/-- Witness for C2: two entries of counts 2 and 1 with the second attempt
failing. -/
theorem c2_index_invariants_witness :
    (((createNodes ok0 entries0 1 (fun _ => 1) (fun _ => none)).trace.map
        (fun pr => pr.2.map Attempt.g)).flatten = List.range' 1 (sumCounts entries0))
  ∧ List.Pairwise (· < ·) (stampedGlobals (createNodes ok0 entries0 1 (fun _ => 1) (fun _ => none)))
  ∧ List.Forall₂ (fun e pr => pr.1 = e.plan_id ∧ pr.2.map Attempt.p = List.range' 1 e.count)
      entries0 (createNodes ok0 entries0 1 (fun _ => 1) (fun _ => none)).trace
  ∧ (createNodes ok0 entries0 1 (fun _ => 1) (fun _ => none)).g = 1 + sumCounts entries0 :=
  c2_index_invariants ok0 entries0 (by decide)

/-- Claim C9 (confirmed): when two node entries resolve to the same plan id,
`node_list[plan_id] = []` at the start of the second entry throws away the
records created for the first: the final dict maps the id to exactly the
second entry's created records, whose global indexes all exceed `k1` — every
record of the first entry (indexes ≤ k1) is gone from the snapshot. -/
theorem c9_duplicate_class_entries (ok : Nat → Bool) (pid : Int) (k1 k2 : Nat) :
    (createNodes ok [⟨pid, k1⟩, ⟨pid, k2⟩] 1 (fun _ => 1) (fun _ => none)).nl pid =
      some ((runRange ok k2 (1 + k1) (1 + k1)).1.filterMap mkRec)
  ∧ ∀ rec ∈ (runRange ok k2 (1 + k1) (1 + k1)).1.filterMap mkRec, k1 < rec.globalIndex := by
  constructor
  · simp [createNodes, runRange_final]
  · intro rec hrec
    rw [List.mem_filterMap] at hrec
    obtain ⟨a, ha, hmk⟩ := hrec
    have hb := runRange_mem_g ok k2 (1 + k1) (1 + k1) a ha
    have hg : rec.globalIndex = a.g := by
      simp only [mkRec] at hmk
      by_cases hok : a.ok
      · rw [if_pos hok] at hmk
        injection hmk with h'
        rw [← h']
      · rw [if_neg hok] at hmk
        cases hmk
    omega

/-- Witness for C9: counts 1 and 2 under `ok0` (second attempt fails): the
snapshot holds only the second entry's surviving record, stamped 3. -/
theorem c9_duplicate_class_entries_witness :
    (createNodes ok0 [⟨5, 1⟩, ⟨5, 2⟩] 1 (fun _ => 1) (fun _ => none)).nl 5 =
      some [⟨3, 3⟩]
  ∧ 1 < (3 : Nat) := by
  have h := c9_duplicate_class_entries ok0 5 1 2
  exact ⟨h.1.trans (by rfl), h.2 ⟨3, 3⟩ (by decide)⟩

/-! ### Storage layout (block-device slot assignment) -/

theorem bootConv_isSome {b : Option PySize} {r : Option Int}
    (h : bootConv b = Except.ok r) : r.isSome = b.isSome := by
  rcases b with _ | sz
  · simp [bootConv] at h
    subst h
    rfl
  · simp only [bootConv] at h
    rcases hd : diskSizeInMb sz with e | m <;> rw [hd] at h <;>
      simp only [Bind.bind, Except.bind] at h
    · cases h
    · injection h with h'
      subst h'
      rfl

theorem swapConv_isSome {s : Option PySize} {r : Option SwapOut}
    (h : swapConv s = Except.ok r) : r.isSome = s.isSome := by
  rcases s with _ | ⟨z⟩ | ⟨str⟩
  · injection h with h'
    subst h'
    rfl
  · injection h with h'
    subst h'
    rfl
  · simp only [swapConv] at h
    by_cases ha : str = "auto".toList
    · rw [if_pos ha] at h
      injection h with h'
      subst h'
      rfl
    · rw [if_neg ha] at h
      rcases hp : pyInt str with _ | z <;> rw [hp] at h
      · cases h
      · injection h with h'
        subst h'
        rfl

/-- The brick loop assigns consecutive pool names starting at its initial
device index, and copies mount point and filesystem type per brick in
document order. -/
theorem layoutBricks_spec : ∀ (bs : List BrickSpec) (di : Nat)
    (os : List OtherDisk) (ms : List BrickMount),
    layoutBricks bs di = Except.ok (os, ms) →
    (ms.map BrickMount.device =
      ((blockDeviceNames.drop di).take bs.length).map (fun nm => "/dev/".toList ++ nm))
  ∧ ms.map BrickMount.mount = bs.map BrickSpec.mount
  ∧ ms.map BrickMount.fs = bs.map BrickSpec.fsType
  | [], di, os, ms => by
    intro h
    simp only [layoutBricks, Except.ok.injEq, Prod.mk.injEq] at h
    obtain ⟨rfl, rfl⟩ := h
    simp
  | b :: rest, di, os, ms => by
    intro h
    simp only [layoutBricks] at h
    rcases hsz : diskSizeInMb b.size with e | sz <;> rw [hsz] at h <;>
      simp only [Bind.bind, Except.bind] at h
    · cases h
    · rcases hget : blockDeviceNames.get? di with _ | nm <;> rw [hget] at h
      · cases h
      · rcases hrec : layoutBricks rest (di + 1) with e | r <;> rw [hrec] at h <;>
          simp only [Bind.bind, Except.bind] at h
        · cases h
        · simp only [Except.ok.injEq, Prod.mk.injEq] at h
          obtain ⟨rfl, rfl⟩ := h
          have ih := layoutBricks_spec rest (di + 1) r.1 r.2 hrec
          rw [List.get?_eq_getElem?] at hget
          rw [List.getElem?_eq_some] at hget
          obtain ⟨hlt, hnm⟩ := hget
          refine ⟨?_, ?_, ?_⟩
          · rw [List.drop_eq_getElem_cons hlt, hnm]
            simp only [List.length_cons, List.take_succ_cons, List.map_cons, List.map_cons]
            rw [ih.1]
          · simp [ih.2.1]
          · simp [ih.2.2]

/-- Claim C5 (confirmed): in a successful layout, devices are assigned from the
fixed pool `sda..sdh` in order — boot (if present) consumes the first slot,
swap (if present) the next, then each brick one slot in document order — and
each brick-mount entry's device path is `/dev/` plus the pool name at its
slot, with mount point and filesystem type taken from the brick; in
particular, with boot and swap both present the first brick gets
`/dev/sdc`. -/
theorem c5_block_device_assignment (disks : DisksSpec) (dp : DiskPlanOut) (ms : List BrickMount)
    (h : computeLayout disks = Except.ok (dp, ms)) :
    (ms.map BrickMount.device =
      ((blockDeviceNames.drop
          ((if disks.boot.isSome then 1 else 0) + (if disks.swap.isSome then 1 else 0))).take
        (disks.bricks.getD []).length).map (fun nm => "/dev/".toList ++ nm))
  ∧ ms.map BrickMount.mount = (disks.bricks.getD []).map BrickSpec.mount
  ∧ ms.map BrickMount.fs = (disks.bricks.getD []).map BrickSpec.fsType
  ∧ (disks.boot.isSome = true → disks.swap.isSome = true → disks.bricks.getD [] ≠ [] →
      ms.head?.map BrickMount.device = some ("/dev/sdc".toList)) := by
  simp only [computeLayout] at h
  rcases hbc : bootConv disks.boot with e | bo <;> rw [hbc] at h <;>
    simp only [Bind.bind, Except.bind] at h
  · cases h
  rcases hsc : swapConv disks.swap with e | so <;> rw [hsc] at h <;>
    simp only [Bind.bind, Except.bind] at h
  · cases h
  have hbo := bootConv_isSome hbc
  have hso := swapConv_isSome hsc
  rcases hbl : disks.bricks.getD [] with _ | ⟨b, bs⟩
  · rw [hbl] at h
    simp only [bricksPhase, Except.ok.injEq, Prod.mk.injEq] at h
    obtain ⟨hdp, rfl⟩ := h
    simp
  · rw [hbl] at h
    simp only [bricksPhase] at h
    rcases hlb : layoutBricks (b :: bs)
        ((if bo.isSome then 1 else 0) + (if so.isSome then 1 else 0)) with e | r <;>
      rw [hlb] at h <;> simp only [Bind.bind, Except.bind] at h
    · cases h
    · simp only [Except.ok.injEq, Prod.mk.injEq] at h
      obtain ⟨hdp, rfl⟩ := h
      have hs := layoutBricks_spec _ _ r.1 r.2 hlb
      refine ⟨?_, hs.2.1, hs.2.2, ?_⟩
      · rw [← hbo, ← hso]
        exact hs.1
      · intro hbt hst hne
        have h1 : (if bo.isSome then 1 else 0) = 1 := by
          rw [hbo, hbt]
          rfl
        have h2 : (if so.isSome then 1 else 0) = 1 := by
          rw [hso, hst]
          rfl
        have hdev := hs.1
        rw [h1, h2] at hdev
        rw [← List.head?_map, hdev]
        have hd2 : blockDeviceNames.drop (1 + 1) =
            ["sdc".toList, "sdd".toList, "sde".toList,
             "sdf".toList, "sdg".toList, "sdh".toList] := by rfl
        rw [hd2]
        simp only [List.length_cons, List.take_succ_cons, List.map_cons, List.head?_cons]
        rfl

/-- Witness for C5 at `disks1` (boot, auto swap, one xfs brick): the single
brick mount is `/dev/sdc`, `/data`, `xfs`. -/
theorem c5_block_device_assignment_witness :
    ((([⟨"/dev/sdc".toList, "/data".toList, "xfs".toList⟩] : List BrickMount).map
        BrickMount.device =
      ((blockDeviceNames.drop
          ((if disks1.boot.isSome then 1 else 0) + (if disks1.swap.isSome then 1 else 0))).take
        (disks1.bricks.getD []).length).map (fun nm => "/dev/".toList ++ nm))
  ∧ ([⟨"/dev/sdc".toList, "/data".toList, "xfs".toList⟩] : List BrickMount).map
      BrickMount.mount = (disks1.bricks.getD []).map BrickSpec.mount
  ∧ ([⟨"/dev/sdc".toList, "/data".toList, "xfs".toList⟩] : List BrickMount).map
      BrickMount.fs = (disks1.bricks.getD []).map BrickSpec.fsType
  ∧ (disks1.boot.isSome = true → disks1.swap.isSome = true → disks1.bricks.getD [] ≠ [] →
      ([⟨"/dev/sdc".toList, "/data".toList, "xfs".toList⟩] : List BrickMount).head?.map
        BrickMount.device = some ("/dev/sdc".toList))) :=
  c5_block_device_assignment disks1
    ⟨some 20480, some SwapOut.auto, [⟨"b1".toList, 102400, "xfs".toList⟩]⟩
    [⟨"/dev/sdc".toList, "/data".toList, "xfs".toList⟩] (by rfl)

/-! ### Brick-mount provisioning -/

/-- `[n.public_ip[0] for n in nodes]` succeeds when every node has at least
one address, producing the heads in order. -/
theorem firstIps_spec : ∀ l : List NodeRecP, (∀ n ∈ l, n.public_ip ≠ []) →
    firstIps l = some (l.map (fun n => n.public_ip.headD []))
  | [] => by
    intro _
    rfl
  | n :: t => by
    intro h
    have hn := h n (List.mem_cons_self _ _)
    simp only [firstIps]
    rcases hip : n.public_ip with _ | ⟨ip, ips⟩
    · exact absurd hip hn
    · simp [firstIps_spec t (fun m hm => h m (List.mem_cons_of_mem _ hm)), hip]

/-- Claim C6 (corrected): provision_brick_mounts invokes the playbook exactly
once per instance class present in `node_list` — including classes whose brick
mount list is empty, since the loop has no emptiness check — passing that
class's first public addresses and the full ordered mount list from
`brick_mounts[plan_id]`. -/
theorem c6_one_invocation_per_class (nl : List (Int × List NodeRecP))
    (bm : List (Int × List BrickMount))
    (hk : ∀ pr ∈ nl, (alistGet bm pr.1).isSome = true)
    (hip : ∀ pr ∈ nl, ∀ n ∈ pr.2, n.public_ip ≠ []) :
    provisionBrickMounts nl bm = Except.ok (nl.map (fun pr =>
      ⟨pr.2.map (fun n => n.public_ip.headD []), (alistGet bm pr.1).getD []⟩)) := by
  induction nl with
  | nil => rfl
  | cons pr rest ih =>
    obtain ⟨pid, nodes⟩ := pr
    simp only [provisionBrickMounts]
    have hk0 := hk (pid, nodes) (List.mem_cons_self _ _)
    rcases hbm : alistGet bm pid with _ | ms
    · rw [hbm] at hk0
      cases hk0
    · rw [firstIps_spec nodes (hip (pid, nodes) (List.mem_cons_self _ _))]
      rw [ih (fun x hx => hk x (List.mem_cons_of_mem _ hx))
        (fun x hx => hip x (List.mem_cons_of_mem _ hx))]
      simp [Bind.bind, Except.bind, hbm]

/-- Witness for C6: two classes, the second with an empty mount list — exactly
two invocations, one per class. -/
theorem c6_one_invocation_per_class_witness :
    provisionBrickMounts
        [(1, [⟨["10.0.0.1".toList]⟩]), (2, [⟨["10.0.0.2".toList]⟩])]
        [(1, [⟨"/dev/sdc".toList, "/data".toList, "xfs".toList⟩]), (2, [])] =
      Except.ok
        ([(1, [(⟨["10.0.0.1".toList]⟩ : NodeRecP)]), (2, [⟨["10.0.0.2".toList]⟩])].map (fun pr =>
          ⟨pr.2.map (fun n => n.public_ip.headD []),
            (alistGet [(1, [(⟨"/dev/sdc".toList, "/data".toList, "xfs".toList⟩ : BrickMount)]),
              (2, [])] pr.1).getD []⟩)) :=
  c6_one_invocation_per_class
    [(1, [⟨["10.0.0.1".toList]⟩]), (2, [⟨["10.0.0.2".toList]⟩])]
    [(1, [⟨"/dev/sdc".toList, "/data".toList, "xfs".toList⟩]), (2, [])]
    (by decide) (by decide)

/-- Counterexample to C6 as stated: a class whose brick mount list is empty is
still provisioned — one invocation with an empty `mounts` variable — whereas
the claim says the collaborator is not invoked for such a class. -/
theorem c6_empty_mounts_still_invoked :
    provisionBrickMounts nl6 bm6 = Except.ok [⟨["10.0.0.1".toList], []⟩] := by rfl

end GlusterPlan
